import Mathlib

/-!
Shallow embedding of the QUIC session core (`session.go`) of the
`superfashi/quic-go` repository.

The session state, stream table and the session operations
(`handlePacket`, `handleStreamFrame`, `handleWindowUpdateFrame`,
`handleRstStreamFrame`, `Close`, `sendPacket`, `NewStream`,
`garbageCollectStreams`, the error-disposition step of `Run`) are
translated from the source.  The external sub-engines (loss recovery,
receive-ack engine, stop-waiting manager, congestion controller, packer,
unpacker, connection writer) live in other packages of the repository and
are modelled as oracle inputs: each session operation takes an
environment structure holding the responses those engines would give,
and records every call it makes to them in an explicit event trace.

The Go map `streams map[protocol.StreamID]*stream` is modelled as an
association list of `StreamID × Option Stream`: a key bound to `none`
is a present entry holding a nil pointer (a tombstone), a key that is
absent from the list is a key absent from the map.  Reading a Go map at
an absent key yields the zero value (nil); `goMapGet` reproduces this,
while `lookupOk` reproduces the comma-ok read that distinguishes
absence from a nil value.

A Go `panic` (nil-pointer dereference, failed internal assertion) has
no return value; every operation that can panic returns a `StepResult`
whose `panicked` flag records that the Go code would have crashed at
that point, with `state`/`events` describing what had happened up to
the panic.
-/

namespace Quic

abbrev StreamID := Nat
abbrev PacketNumber := Nat
abbrev ByteCount := Nat
abbrev ConnectionID := Nat

/-- Error code of `errorcodes.QUIC_DECRYPTION_FAILURE`.  Modelled from the
spec: the numeric values of the error-code package are not under `src/`;
only distinctness of the codes matters here. -/
def QUIC_DECRYPTION_FAILURE : Nat := 12

/-- Error code of `errorcodes.QUIC_PEER_GOING_AWAY` (see
`QUIC_DECRYPTION_FAILURE` for the modelling convention). -/
def QUIC_PEER_GOING_AWAY : Nat := 16

/-- Error code of `errorcodes.QUIC_NETWORK_IDLE_TIMEOUT` (see
`QUIC_DECRYPTION_FAILURE` for the modelling convention). -/
def QUIC_NETWORK_IDLE_TIMEOUT : Nat := 25

/-- Go `error` values observable by the session.  Constructors stand for
the distinct error identities the code compares against: the sentinel
errors declared at the top of `session.go`, the sentinel errors of the
`ackhandler` package, typed `*protocol.QuicError` values (code plus
reason phrase), the `fmt.Errorf` value built by `handleRstStreamFrame`,
the `fmt.Errorf` value built by `NewStream`, and arbitrary other error
values produced by external engines. -/
inductive GoError where
  | invalidStreamID
  | reopeningStreamsNotAllowed
  | rstStreamOnInvalidStream
  | windowUpdateOnInvalidStream
  | duplicateOrOutOfOrderAck
  | mapAccess
  | quicErr (code : Nat) (phrase : String)
  | rstReceived (code : Nat)
  | streamAlreadyExists (id : StreamID)
  | other (tag : Nat)
deriving DecidableEq

/-- `protocol.ErrorCode` extraction in `Close`: the code of a
`*protocol.QuicError`, and `ErrorCode(1)` for any other error value. -/
def goErrorCode : GoError → Nat
  | GoError.quicErr c _ => c
  | _ => 1

/-- The type assertion in `handlePacket`:
`err.(*protocol.QuicError)` succeeded and the code is
`QUIC_DECRYPTION_FAILURE`. -/
def isDecryptionFailureErr : GoError → Bool
  | GoError.quicErr c _ => c == QUIC_DECRYPTION_FAILURE
  | _ => false

/-- A STREAM frame (`frames.StreamFrame`): stream id, offset, data
bytes, FIN bit. -/
structure StreamFrame where
  streamID : StreamID
  offset : ByteCount
  data : List Nat
  finBit : Bool
deriving DecidableEq

/-- A WINDOW_UPDATE frame (`frames.WindowUpdateFrame`). -/
structure WindowUpdateFrame where
  streamID : StreamID
  byteOffset : ByteCount
deriving DecidableEq

/-- A RST_STREAM frame (`frames.RstStreamFrame`). -/
structure RstStreamFrame where
  streamID : StreamID
  errorCode : Nat
  byteOffset : ByteCount
deriving DecidableEq

/-- An ACK frame (`frames.AckFrame`); only the field the session itself
reads (the ack-delay time) is modelled, the rest is consumed by the
external loss-recovery engine. -/
structure AckFrame where
  delayTime : Nat
deriving DecidableEq

/-- Per-stream state.  The stream implementation lives in `stream.go`,
which is not under `src/`; the fields are modelled from the spec's data
model: receive reassembly buffer, send-side flow-control window,
receive side fully drained (`finishedReading`), terminal error (set
once, `RegisterError`). -/
structure Stream where
  id : StreamID
  flowControlWindow : ByteCount
  finishedReading : Bool
  frames : List StreamFrame
  streamError : Option GoError
deriving DecidableEq

/-- Modelled from the spec: the `newStream` constructor of `stream.go`
(not under `src/`) creates a fresh stream for the given id; the spec
gives it no failure mode, so it is total. -/
def newStream (id : StreamID) : Stream :=
  { id := id, flowControlWindow := 0, finishedReading := false,
    frames := [], streamError := none }

/-- Modelled from the spec: `stream.UpdateFlowControlWindow` of
`stream.go` (not under `src/`) raises the stream's send-side
flow-control window to the new byte offset; a lower offset is a no-op
(monotonic). -/
def Stream.updateFlowControlWindow (str : Stream) (n : ByteCount) : Stream :=
  if str.flowControlWindow < n then { str with flowControlWindow := n } else str

/-- Modelled from the spec: `stream.RegisterError` of `stream.go` (not
under `src/`) sets the stream's terminal error once. -/
def Stream.registerError (str : Stream) (e : GoError) : Stream :=
  match str.streamError with
  | some _ => str
  | none => { str with streamError := some e }

/-- The Go map `streams map[protocol.StreamID]*stream` as an association
list: a key bound to `none` is a tombstone (present entry holding a nil
pointer), an absent key is absent from the map. -/
abbrev StreamTable := List (StreamID × Option Stream)

/-- Comma-ok read of the Go map: `none` when the key is absent,
`some v` when the key is present and bound to `v`. -/
def lookupOk : StreamTable → StreamID → Option (Option Stream)
  | [], _ => none
  | (a, v) :: t, k => if k = a then some v else lookupOk t k

/-- Plain read of the Go map: the zero value (nil pointer, `none`) when
the key is absent, otherwise the stored pointer.  An absent key and a
tombstone are indistinguishable through this read. -/
def goMapGet (t : StreamTable) (k : StreamID) : Option Stream :=
  match lookupOk t k with
  | none => none
  | some v => v

/-- Go map assignment `streams[k] = v`: replace the binding when the key
is present, insert it otherwise. -/
def setStream : StreamTable → StreamID → Option Stream → StreamTable
  | [], k, v => [(k, v)]
  | (a, w) :: t, k, v =>
      if k = a then (k, v) :: t else (a, w) :: setStream t k v

/-- The session state owned by the event loop: connection id, stream
table, closed flag, last received packet number (`session.go` struct
fields; the sub-engines are external and appear as oracles). -/
structure Session where
  connectionID : ConnectionID
  streams : StreamTable
  closed : Bool
  lastRcvdPacketNumber : PacketNumber
deriving DecidableEq

/-- The session with its stream table replaced (notation helper for
record updates in statements). -/
def Session.withStreams (s : Session) (t : StreamTable) : Session :=
  { s with streams := t }

/-- The session with its last received packet number replaced (notation
helper for record updates in statements). -/
def Session.withLastRcvd (s : Session) (pn : PacketNumber) : Session :=
  { s with lastRcvdPacketNumber := pn }

/-- Observable calls a session operation makes to the external engines,
the connection writer and the application callbacks. -/
inductive Event where
  | setRemoteAddr (addr : Nat)
  | receivedPacketRegistered (pn : PacketNumber) (entropyBit : Bool)
  | closeSignal
  | closeCallbackEv (cid : ConnectionID)
  | streamCallbackEv (id : StreamID)
  | publicReset (cid : ConnectionID) (rejectedPacketNumber : PacketNumber) (nonceProof : Nat)
  | connectionCloseSent (code : Nat) (reason : GoError)
  | connWriteEv
  | logErrorEv (e : GoError)
  | dequeueRetransmissionEv
  | registerRetransmissionEv (pn : PacketNumber)
  | addHighPrioEv (f : StreamFrame)
  | getStopWaitingEv
  | dequeueAckEv
  | packPacketEv
  | sentPacketEv (pn : PacketNumber)
  | onPacketSentEv (pn : PacketNumber)
  | sentStopWaitingEv (pn : PacketNumber)
  | scheduleSendingEv
  | rttUpdatedEv (duration : Nat) (delay : Nat)
  | onCongestionEventEv (bytesInFlight : ByteCount) (acked : List (PacketNumber × Nat)) (lost : List (PacketNumber × Nat))
  | receivedStopWaitingEv
deriving DecidableEq

/-- Result of one session operation: the state after it, the trace of
external calls it made, the Go error it returned (`none` = nil), and
whether the Go code panicked at this point instead of returning. -/
structure StepResult where
  state : Session
  events : List Event
  result : Option GoError
  panicked : Bool
deriving DecidableEq

/-- `session.isValidStreamID` (session.go:256): a peer-initiated stream
id must be odd. -/
def isValidStreamID (streamID : StreamID) : Bool :=
  if streamID % 2 != 1 then false else true

/-- `Session.NewStream` (session.go:465): build the stream, then check
occupancy with a plain Go map read (`s.streams[id] != nil`) — which
yields nil both for an absent key and for a tombstone — and register the
stream.  `newStream` is spec-modelled as total, so the error branch of
the constructor is unreachable here. -/
def NewStream (s : Session) (id : StreamID) : Session × Except GoError Stream :=
  let str := newStream id
  match goMapGet s.streams id with
  | some _ => (s, Except.error (GoError.streamAlreadyExists id))
  | none =>
      ({ s with streams := setStream s.streams id (some str) }, Except.ok str)

/-- `session.handleStreamFrame` (session.go:230).  `AddStreamFrame`
lives in `stream.go` (not under `src/`) and is passed in as the
`addFrame` oracle; modelled from the spec, it appends the frame to the
stream's reassembly buffer and may fail per the buffer's internal
offset-continuity and FIN rules, returning the updated stream on
success (on failure the stream value is taken unchanged).  The error
returned by `NewStream` is discarded by the source (`ss, _ :=
s.NewStream(...)`), and cannot occur here since the id was absent. -/
def handleStreamFrame (addFrame : Stream → StreamFrame → Except GoError Stream)
    (s : Session) (frame : StreamFrame) : StepResult :=
  match lookupOk s.streams frame.streamID with
  | some none => ⟨s, [], some GoError.reopeningStreamsNotAllowed, false⟩
  | some (some str) =>
      match addFrame str frame with
      | Except.error e => ⟨s, [], some e, false⟩
      | Except.ok str' =>
          ⟨{ s with streams := setStream s.streams frame.streamID (some str') },
           [], none, false⟩
  | none =>
      if isValidStreamID frame.streamID = false then
        ⟨s, [], some GoError.invalidStreamID, false⟩
      else
        let str := newStream frame.streamID
        let s1 : Session := { s with streams := setStream s.streams frame.streamID (some str) }
        match addFrame str frame with
        | Except.error e => ⟨s1, [], some e, false⟩
        | Except.ok str' =>
            ⟨{ s1 with streams := setStream s1.streams frame.streamID (some str') },
             [Event.streamCallbackEv frame.streamID], none, false⟩

/-- `session.handleWindowUpdateFrame` (session.go:263).  Stream id 0 is
accepted and ignored; an absent id yields
`errWindowUpdateOnInvalidStream`; otherwise the handler calls
`stream.UpdateFlowControlWindow` on the stored pointer without a nil
check, so on a tombstone it dereferences a nil `*stream` — a Go runtime
panic, recorded as `panicked`. -/
def handleWindowUpdateFrame (s : Session) (frame : WindowUpdateFrame) : StepResult :=
  if frame.streamID = 0 then ⟨s, [], none, false⟩
  else
    match lookupOk s.streams frame.streamID with
    | none => ⟨s, [], some GoError.windowUpdateOnInvalidStream, false⟩
    | some none => ⟨s, [], none, true⟩
    | some (some str) =>
        let str' := str.updateFlowControlWindow frame.byteOffset
        ⟨{ s with streams := setStream s.streams frame.streamID (some str') },
         [], none, false⟩

/-- `session.handleRstStreamFrame` (session.go:283): absent or
tombstoned ids yield `errRstStreamOnInvalidStream`; otherwise a local
error carrying the peer's code is registered on the stream. -/
def handleRstStreamFrame (s : Session) (frame : RstStreamFrame) : StepResult :=
  match lookupOk s.streams frame.streamID with
  | none => ⟨s, [], some GoError.rstStreamOnInvalidStream, false⟩
  | some none => ⟨s, [], some GoError.rstStreamOnInvalidStream, false⟩
  | some (some str) =>
      let str' := str.registerError (GoError.rstReceived frame.errorCode)
      ⟨{ s with streams := setStream s.streams frame.streamID (some str') },
       [], none, false⟩

/-- Per-entry effect of `session.garbageCollectStreams` on one table
binding: nil entries are skipped, a finished stream's binding is set to
nil, an unfinished stream is left unchanged. -/
def gcEntry : Option Stream → Option Stream
  | none => none
  | some str => if str.finishedReading then none else some str

/-- `session.garbageCollectStreams` (session.go:483): iterate over the
whole table, tombstoning every live stream whose receive side reports
`finishedReading()`.  Keys are never removed. -/
def garbageCollectStreams (s : Session) : Session :=
  { s with streams := s.streams.map (fun p => (p.1, gcEntry p.2)) }

/-- `session.closeStreamsWithError` (session.go:367): register the error
on every live stream, skipping tombstones. -/
def closeStreamsWithError (s : Session) (e : GoError) : Session :=
  { s with streams :=
      s.streams.map (fun p => (p.1, p.2.map (fun str => str.registerError e))) }

/-- A packed outbound packet as returned by the external packer: packet
number, raw length in bytes, entropy bit (the frame list is consumed
only by the external engines). -/
structure PackedPacket where
  number : PacketNumber
  rawLen : Nat
  entropyBit : Bool
deriving DecidableEq

/-- Oracle responses of the externals `Close` uses: the packer's
`PackPacket` result and the connection writer's `write` result. -/
structure CloseEnv where
  packResult : Except GoError (Option PackedPacket)
  writeResult : Option GoError

/-- `session.sendPublicReset` (session.go:496): build a public reset
packet carrying the connection id, the rejected packet number and a
zero nonce proof, and hand its bytes to the connection writer. -/
def sendPublicReset (env : CloseEnv) (s : Session)
    (rejectedPacketNumber : PacketNumber) : List Event × Option GoError :=
  ([Event.publicReset s.connectionID rejectedPacketNumber 0, Event.connWriteEv],
   env.writeResult)

/-- `session.Close` (session.go:326).  The already-closed guard returns
nil immediately; otherwise the closed flag is set, the close signal is
raised, the close callback is invoked with the connection id, and — when
`sendConnectionClose` — a nil error is replaced by `PEER_GOING_AWAY`,
every live stream receives the error, and either a public reset (on a
`QUIC_DECRYPTION_FAILURE` code) or a single-CONNECTION_CLOSE packet is
written.  A nil packet from the packer is an internal-inconsistency
panic in the source. -/
def Close (env : CloseEnv) (s : Session) (e : Option GoError)
    (sendConnectionClose : Bool) : StepResult :=
  if s.closed then ⟨s, [], none, false⟩
  else
    let s1 : Session := { s with closed := true }
    let baseEvents : List Event := [Event.closeSignal, Event.closeCallbackEv s1.connectionID]
    if sendConnectionClose = false then ⟨s1, baseEvents, none, false⟩
    else
      let e1 : GoError :=
        match e with
        | none => GoError.quicErr QUIC_PEER_GOING_AWAY "peer going away"
        | some err => err
      let errorCode : Nat := goErrorCode e1
      let s2 : Session := closeStreamsWithError s1 e1
      if errorCode = QUIC_DECRYPTION_FAILURE then
        let wr := sendPublicReset env s2 s2.lastRcvdPacketNumber
        ⟨s2, baseEvents ++ wr.1, wr.2, false⟩
      else
        match env.packResult with
        | Except.error err => ⟨s2, baseEvents, some err, false⟩
        | Except.ok none => ⟨s2, baseEvents, none, true⟩
        | Except.ok (some _p) =>
            ⟨s2, baseEvents ++ [Event.connectionCloseSent errorCode e1, Event.connWriteEv],
             env.writeResult, false⟩

/-- A retransmission dequeued from loss recovery
(`DequeuePacketForRetransmission`): its number and the stream frames it
carried (its control frames only travel on into the packer). -/
structure RetransPacket where
  packetNumber : PacketNumber
  streamFrames : List StreamFrame
deriving DecidableEq

/-- Oracle responses of the externals `sendPacket` consults, in the
order the source consults them: current bytes in flight and congestion
window, the dequeued retransmission (if any), the receive-ack engine's
`DequeueAckFrame` result, the packer's `PackPacket` result, loss
recovery's `SentPacket` result (`none` = accepted), the connection
writer's `write` result, and whether the packer still holds queued
data. -/
structure SendEnv where
  bytesInFlight : ByteCount
  congestionWindow : ByteCount
  retransmitPacket : Option RetransPacket
  dequeueAck : Except GoError (Option AckFrame)
  packPacket : Except GoError (Option PackedPacket)
  sentPacketResult : Option GoError
  writeResult : Option GoError
  packerEmpty : Bool

/-- `session.congestionAllowsSending` (session.go:516). -/
def congestionAllowsSending (env : SendEnv) : Bool :=
  env.bytesInFlight ≤ env.congestionWindow

/-- Trace of the retransmission-dequeue step of `sendPacket`
(session.go:387): the dequeue call, and when a packet was pending its
registration with the stop-waiting manager and the high-priority push of
each of its stream frames into the packer. -/
def retransEvents : Option RetransPacket → List Event
  | none => [Event.dequeueRetransmissionEv]
  | some rp =>
      Event.dequeueRetransmissionEv ::
        Event.registerRetransmissionEv rp.packetNumber ::
          rp.streamFrames.map Event.addHighPrioEv

/-- `session.sendPacket` (session.go:378).  If congestion disallows
sending, return nil at once; otherwise dequeue one retransmission, ask
for a stop-waiting frame, dequeue one ACK frame (propagating its
error), pack one packet (nil = nothing to send), register it with loss
recovery (propagating its error), notify the congestion controller,
inform the stop-waiting manager, write the bytes (propagating the
error), and re-raise the egress signal when the packer is non-empty. -/
def sendPacket (env : SendEnv) : List Event × Option GoError :=
  if congestionAllowsSending env then
    let evs0 := retransEvents env.retransmitPacket ++ [Event.getStopWaitingEv, Event.dequeueAckEv]
    match env.dequeueAck with
    | Except.error e => (evs0, some e)
    | Except.ok _ack =>
      let evs1 := evs0 ++ [Event.packPacketEv]
      match env.packPacket with
      | Except.error e => (evs1, some e)
      | Except.ok none => (evs1, none)
      | Except.ok (some p) =>
        let evs2 := evs1 ++ [Event.sentPacketEv p.number]
        match env.sentPacketResult with
        | some e => (evs2, some e)
        | none =>
          let evs3 := evs2 ++ [Event.onPacketSentEv p.number,
            Event.sentStopWaitingEv p.number, Event.connWriteEv]
          match env.writeResult with
          | some e => (evs3, some e)
          | none =>
              (evs3 ++ (if env.packerEmpty then [] else [Event.scheduleSendingEv]), none)
  else ([], none)

/-- Outcome of loss recovery's `ReceivedAck`: round-trip duration and
the newly acked / newly lost packet vectors (number, length). -/
structure AckOutcome where
  duration : Nat
  acked : List (PacketNumber × Nat)
  lost : List (PacketNumber × Nat)
deriving DecidableEq

/-- `session.handleAckFrame` (session.go:294): forward the frame to
loss recovery (the `receivedAck` oracle, propagating its error), feed
the sample into the RTT estimator, and raise a congestion event with the
translated acked/lost vectors and current in-flight bytes. -/
def handleAckFrame (receivedAck : AckFrame → Except GoError AckOutcome)
    (bytesInFlight : ByteCount) (s : Session) (frame : AckFrame) : StepResult :=
  match receivedAck frame with
  | Except.error e => ⟨s, [], some e, false⟩
  | Except.ok o =>
      ⟨s, [Event.rttUpdatedEv o.duration frame.delayTime,
           Event.onCongestionEventEv bytesInFlight o.acked o.lost],
       none, false⟩

/-- A decoded frame as dispatched by the loop of `handlePacket`
(session.go:188); BLOCKED carries the stream id it logs, PING and
STOP_WAITING payloads are consumed by the external engines. -/
inductive Frame where
  | stream (f : StreamFrame)
  | ack (f : AckFrame)
  | connectionClose
  | stopWaiting
  | rstStream (f : RstStreamFrame)
  | windowUpdate (f : WindowUpdateFrame)
  | blocked (streamID : StreamID)
  | ping
deriving DecidableEq

/-- Oracle responses the frame dispatcher needs: the stream buffer
append, loss recovery's `ReceivedAck`, current bytes in flight, the
receive-ack engine's `ReceivedStopWaiting` result, and the `Close`
environment for a peer CONNECTION_CLOSE. -/
structure DispatchEnv where
  addFrame : Stream → StreamFrame → Except GoError Stream
  receivedAck : AckFrame → Except GoError AckOutcome
  bytesInFlight : ByteCount
  receivedStopWaiting : Option GoError
  closeEnv : CloseEnv

/-- One arm of the frame-type switch of `handlePacket` (session.go:190):
STREAM, ACK, RST_STREAM and WINDOW_UPDATE go to their handlers, a peer
CONNECTION_CLOSE triggers `Close(nil, false)` (its return value is
discarded and the iteration error stays nil), STOP_WAITING is forwarded
to the receive-ack engine, BLOCKED is only logged and PING is a
no-op. -/
def dispatchFrame (env : DispatchEnv) (s : Session) : Frame → StepResult
  | Frame.stream f => handleStreamFrame env.addFrame s f
  | Frame.ack f => handleAckFrame env.receivedAck env.bytesInFlight s f
  | Frame.connectionClose =>
      let r := Close env.closeEnv s none false
      ⟨r.state, r.events, none, r.panicked⟩
  | Frame.stopWaiting => ⟨s, [Event.receivedStopWaitingEv], env.receivedStopWaiting, false⟩
  | Frame.rstStream f => handleRstStreamFrame s f
  | Frame.windowUpdate f => handleWindowUpdateFrame s f
  | Frame.blocked _ => ⟨s, [], none, false⟩
  | Frame.ping => ⟨s, [], none, false⟩

/-- The frame loop of `handlePacket` (session.go:188): frames are
dispatched in wire order and the first handler error aborts the rest of
the packet and propagates. -/
def dispatchFrames (env : DispatchEnv) : Session → List Frame → StepResult
  | s, [] => ⟨s, [], none, false⟩
  | s, f :: fs =>
      let r := dispatchFrame env s f
      if r.panicked then r
      else
        match r.result with
        | some e => ⟨r.state, r.events, some e, false⟩
        | none =>
            let r2 := dispatchFrames env r.state fs
            ⟨r2.state, r.events ++ r2.events, r2.result, r2.panicked⟩

/-- A decrypted packet as returned by the external unpacker: entropy
bit and decoded frames. -/
structure UnpackedPacket where
  entropyBit : Bool
  frames : List Frame

/-- Oracle responses `handlePacket` needs:
`protocol.InferPacketNumber` (a pure function of the anchor and the
truncated wire number; the `protocol` package is not under `src/`), the
unpacker's result for this packet, and the dispatch environment. -/
structure HandlePacketEnv where
  inferPacketNumber : PacketNumber → PacketNumber → PacketNumber
  unpack : Except GoError UnpackedPacket
  dispatchEnv : DispatchEnv

/-- `session.handlePacket` (session.go:161).  The full packet number is
inferred from the last received packet number and stored back into the
session, the remote address is updated, and only then is the packet
unpacked: a `QUIC_DECRYPTION_FAILURE` makes the packet be discarded
with a nil result, any other unpack error is returned, and on success
the packet is registered with the receive-ack engine and its frames
dispatched. -/
def handlePacket (env : HandlePacketEnv) (s : Session) (remoteAddr : Nat)
    (wirePacketNumber : PacketNumber) : StepResult :=
  let pn := env.inferPacketNumber s.lastRcvdPacketNumber wirePacketNumber
  let s1 : Session := { s with lastRcvdPacketNumber := pn }
  let evs0 := [Event.setRemoteAddr remoteAddr]
  match env.unpack with
  | Except.error e =>
      if isDecryptionFailureErr e then ⟨s1, evs0, none, false⟩
      else ⟨s1, evs0, some e, false⟩
  | Except.ok packet =>
      let evs1 := evs0 ++ [Event.receivedPacketRegistered pn packet.entropyBit]
      let r := dispatchFrames env.dispatchEnv s1 packet.frames
      ⟨r.state, evs1 ++ r.events, r.result, r.panicked⟩

/-- The error-disposition step at the end of each `Run` iteration
(session.go:143): a nil error does nothing,
`ackhandler.ErrDuplicateOrOutOfOrderAck` is silently swallowed,
`ackhandler.ErrMapAccess` triggers `Close(err, true)`,
`errRstStreamOnInvalidStream` is logged and swallowed, and every other
error triggers `Close(err, true)`; `Close`'s return value is discarded
by the loop. -/
def runDisposeLoopError (env : CloseEnv) (s : Session) (err : Option GoError) : StepResult :=
  match err with
  | none => ⟨s, [], none, false⟩
  | some GoError.duplicateOrOutOfOrderAck => ⟨s, [], none, false⟩
  | some GoError.mapAccess =>
      let r := Close env s (some GoError.mapAccess) true
      ⟨r.state, r.events, none, r.panicked⟩
  | some GoError.rstStreamOnInvalidStream =>
      ⟨s, [Event.logErrorEv GoError.rstStreamOnInvalidStream], none, false⟩
  | some e =>
      let r := Close env s (some e) true
      ⟨r.state, r.events, none, r.panicked⟩

/-! Concrete fixtures used to evaluate the definitions on specific
inputs. -/

/-- A plain append into the reassembly buffer, used as a concrete
instance of the `addFrame` oracle. -/
def appendFrame (str : Stream) (f : StreamFrame) : Except GoError Stream :=
  Except.ok { str with frames := str.frames ++ [f] }

/-- An `addFrame` oracle instance that always fails, standing for a
reassembly buffer rejecting the frame. -/
def rejectFrame (_str : Stream) (_f : StreamFrame) : Except GoError Stream :=
  Except.error (GoError.other 42)

/-- A session with connection id 1 and an empty stream table. -/
def session0 : Session :=
  { connectionID := 1, streams := [], closed := false, lastRcvdPacketNumber := 0 }

/-- A stream with id 3 whose receive side is fully drained. -/
def streamFin3 : Stream :=
  { id := 3, flowControlWindow := 0, finishedReading := true, frames := [], streamError := none }

/-- A session holding the drained stream 3 live in its table. -/
def sessionFin3 : Session :=
  { connectionID := 7, streams := [(3, some streamFin3)], closed := false,
    lastRcvdPacketNumber := 0 }

/-- A session whose table holds a tombstone at stream id 3. -/
def sessionTomb3 : Session :=
  { connectionID := 7, streams := [(3, none)], closed := false, lastRcvdPacketNumber := 9 }

/-- A `CloseEnv` whose packer returns a packet and whose writer
succeeds. -/
def closeEnv0 : CloseEnv :=
  { packResult := Except.ok (some { number := 2, rawLen := 40, entropyBit := false }),
    writeResult := none }

/-- A `SendEnv` with 5 bytes in flight against a congestion window of
3, so that congestion forbids sending. -/
def sendEnvBlocked : SendEnv :=
  { bytesInFlight := 5, congestionWindow := 3, retransmitPacket := none,
    dequeueAck := Except.ok none, packPacket := Except.ok none, sentPacketResult := none,
    writeResult := none, packerEmpty := true }

/-- A `SendEnv` in which congestion allows sending, the packer returns
packet number 4, and loss recovery rejects it. -/
def sendEnvRejected : SendEnv :=
  { bytesInFlight := 1, congestionWindow := 3, retransmitPacket := none,
    dequeueAck := Except.ok none,
    packPacket := Except.ok (some { number := 4, rawLen := 20, entropyBit := true }),
    sentPacketResult := some (GoError.other 9),
    writeResult := none, packerEmpty := true }

/-- A `DispatchEnv` built from the concrete oracles above. -/
def dispatchEnv0 : DispatchEnv :=
  { addFrame := appendFrame, receivedAck := fun _ => Except.error GoError.duplicateOrOutOfOrderAck,
    bytesInFlight := 0, receivedStopWaiting := none, closeEnv := closeEnv0 }

/-- A session with an empty table whose last received packet number is
3. -/
def sessionLast3 : Session :=
  { connectionID := 1, streams := [], closed := false, lastRcvdPacketNumber := 3 }

/-- A `HandlePacketEnv` whose unpacker fails with
`QUIC_DECRYPTION_FAILURE`; packet-number inference is the identity on
the wire number (an untruncated wire representation). -/
def handlePacketEnvDecFail : HandlePacketEnv :=
  { inferPacketNumber := fun _last wire => wire,
    unpack := Except.error (GoError.quicErr QUIC_DECRYPTION_FAILURE "decryption failed"),
    dispatchEnv := dispatchEnv0 }

/-! Helper lemmas about the stream-table operations. -/

theorem lookupOk_setStream (t : StreamTable) (k : StreamID) (v : Option Stream) (id : StreamID) :
    lookupOk (setStream t k v) id = if id = k then some v else lookupOk t id := by
  induction t with
  | nil =>
      by_cases h : id = k <;> simp [setStream, lookupOk, h]
  | cons p t ih =>
      obtain ⟨a, w⟩ := p
      by_cases hka : k = a
      · subst hka
        by_cases hid : id = k <;> simp [setStream, lookupOk, hid]
      · by_cases hid : id = a
        · subst hid
          have hidk : ¬ id = k := fun hh => hka (hh ▸ rfl)
          simp [setStream, lookupOk, hka, hidk]
        · simp [setStream, lookupOk, hka, hid, ih]

theorem lookupOk_mapValues (f : Option Stream → Option Stream) (t : StreamTable) (id : StreamID) :
    lookupOk (t.map (fun p => (p.1, f p.2))) id = (lookupOk t id).map f := by
  induction t with
  | nil => simp [lookupOk]
  | cons p t ih =>
      obtain ⟨a, w⟩ := p
      by_cases h : id = a <;> simp [lookupOk, h, ih]

theorem lookupOk_garbageCollect (s : Session) (k : StreamID) :
    lookupOk (garbageCollectStreams s).streams k = (lookupOk s.streams k).map gcEntry :=
  lookupOk_mapValues gcEntry s.streams k

theorem lookupOk_closeStreamsWithError (s : Session) (e : GoError) (k : StreamID) :
    lookupOk (closeStreamsWithError s e).streams k =
      (lookupOk s.streams k).map (fun v => v.map (fun str => str.registerError e)) := by
  exact lookupOk_mapValues (fun v => Option.map (fun str => Stream.registerError str e) v) s.streams k

theorem lookupOk_setStream_ne (t : StreamTable) (k : StreamID) (v : Option Stream)
    (id : StreamID) (h : id ≠ k) :
    lookupOk (setStream t k v) id = lookupOk t id := by
  rw [lookupOk_setStream]
  simp [h]

theorem Close_noop_when_closed (env : CloseEnv) (s : Session) (e : Option GoError)
    (b : Bool) (h : s.closed = true) :
    Close env s e b = ⟨s, [], none, false⟩ := by
  unfold Close
  simp [h]

theorem lookupOk_Close_streams (env : CloseEnv) (s : Session) (eo : Option GoError)
    (b : Bool) (id : StreamID) (h : lookupOk s.streams id = some none) :
    lookupOk (Close env s eo b).state.streams id = some none := by
  have hcse : ∀ e1 : GoError,
      lookupOk (closeStreamsWithError { s with closed := true } e1).streams id = some none := by
    intro e1
    rw [lookupOk_closeStreamsWithError]
    show (lookupOk s.streams id).map _ = some none
    rw [h]
    rfl
  simp only [Close]
  repeat' split
  all_goals first | exact h | exact hcse _

/-! Claim theorems. -/

/-- C10: `garbageCollectStreams` never removes a key from the stream
table; an entry becomes nil exactly when it held a live stream whose
receive side reports `finishedReading`, and nil tombstones and
unfinished live streams are left unchanged. -/
theorem garbageCollectStreams_spec (s : Session) (k : StreamID) :
    (lookupOk (garbageCollectStreams s).streams k = none ↔ lookupOk s.streams k = none) ∧
    (lookupOk s.streams k = some none →
       lookupOk (garbageCollectStreams s).streams k = some none) ∧
    (∀ str, lookupOk s.streams k = some (some str) →
       lookupOk (garbageCollectStreams s).streams k =
         some (if str.finishedReading = true then none else some str)) ∧
    (∀ str, lookupOk s.streams k = some (some str) →
       lookupOk (garbageCollectStreams s).streams k = some none →
       str.finishedReading = true) := by
  have h := lookupOk_garbageCollect s k
  refine ⟨?_, ?_, ?_, ?_⟩
  · rw [h]
    cases lookupOk s.streams k <;> simp
  · intro hk
    rw [h, hk]
    rfl
  · intro str hk
    rw [h, hk]
    cases hfin : str.finishedReading <;> simp [gcEntry, hfin]
  · intro str hk hres
    rw [h, hk] at hres
    cases hfin : str.finishedReading
    · simp [gcEntry, hfin] at hres
    · rfl

/-- Witness for C10 at a concrete table: the drained live stream 3 is
tombstoned by garbage collection. -/
theorem garbageCollectStreams_spec_witness :
    lookupOk (garbageCollectStreams sessionFin3).streams 3 =
      some (if streamFin3.finishedReading = true then none else some streamFin3) :=
  (garbageCollectStreams_spec sessionFin3 3).2.2.1 streamFin3 rfl

/-- C4: when bytes in flight exceed the congestion window, `sendPacket`
returns nil immediately with an empty call trace: no retransmission or
ACK dequeue, no packet built, nothing registered with loss recovery or
the congestion controller, nothing written. -/
theorem sendPacket_congestion_blocked (env : SendEnv)
    (h : env.congestionWindow < env.bytesInFlight) :
    sendPacket env = ([], none) := by
  have hnot : ¬ (env.bytesInFlight ≤ env.congestionWindow) := not_le.mpr h
  have hc : congestionAllowsSending env = false := by
    unfold congestionAllowsSending
    exact decide_eq_false hnot
  simp [sendPacket, hc]

/-- Witness for C4 at a concrete environment with 5 bytes in flight and
a congestion window of 3. -/
theorem sendPacket_congestion_blocked_witness :
    sendPacket sendEnvBlocked = ([], none) :=
  sendPacket_congestion_blocked sendEnvBlocked (by decide)

/-- C5: `handleStreamFrame` rejects an absent even id with
`InvalidStreamID` and creates no stream; on an absent odd id it creates
the stream, appends the frame, and fires the stream callback exactly
once and only after the append succeeded (not at all when the append
fails, though the freshly created stream stays registered); a
tombstoned id yields `ReopeningStreamsNotAllowed`. -/
theorem handleStreamFrame_spec (addFrame : Stream → StreamFrame → Except GoError Stream)
    (s : Session) (frame : StreamFrame) :
    (lookupOk s.streams frame.streamID = none → frame.streamID % 2 = 0 →
       handleStreamFrame addFrame s frame = ⟨s, [], some GoError.invalidStreamID, false⟩) ∧
    (lookupOk s.streams frame.streamID = none → frame.streamID % 2 = 1 →
       (∀ str', addFrame (newStream frame.streamID) frame = Except.ok str' →
          handleStreamFrame addFrame s frame =
            ⟨s.withStreams (setStream (setStream s.streams frame.streamID
                 (some (newStream frame.streamID))) frame.streamID (some str')),
             [Event.streamCallbackEv frame.streamID], none, false⟩) ∧
       (∀ e, addFrame (newStream frame.streamID) frame = Except.error e →
          handleStreamFrame addFrame s frame =
            ⟨s.withStreams (setStream s.streams frame.streamID
                 (some (newStream frame.streamID))),
             [], some e, false⟩)) ∧
    (lookupOk s.streams frame.streamID = some none →
       handleStreamFrame addFrame s frame =
         ⟨s, [], some GoError.reopeningStreamsNotAllowed, false⟩) := by
  refine ⟨?_, ?_, ?_⟩
  · intro habs heven
    have hv : isValidStreamID frame.streamID = false := by
      simp [isValidStreamID, heven]
    simp [handleStreamFrame, habs, hv]
  · intro habs hodd
    have hv : isValidStreamID frame.streamID = true := by
      simp [isValidStreamID, hodd]
    constructor
    · intro str' hok
      simp [handleStreamFrame, habs, hv, hok, Session.withStreams]
    · intro e herr
      simp [handleStreamFrame, habs, hv, herr, Session.withStreams]
  · intro htomb
    simp [handleStreamFrame, htomb]

/-- Witness for C5 at concrete inputs: an even-id STREAM frame on the
empty session is rejected without creating a stream. -/
theorem handleStreamFrame_spec_witness :
    handleStreamFrame appendFrame session0 { streamID := 2, offset := 0, data := [], finBit := false } =
      ⟨session0, [], some GoError.invalidStreamID, false⟩ :=
  (handleStreamFrame_spec appendFrame session0
    { streamID := 2, offset := 0, data := [], finBit := false }).1 rfl rfl

/-- C3 counterexample: a WINDOW_UPDATE for a tombstoned stream id does
not return nil without faulting — the handler calls
`UpdateFlowControlWindow` on the nil table entry and panics. -/
theorem handleWindowUpdateFrame_tombstone_faults :
    (handleWindowUpdateFrame sessionTomb3 { streamID := 3, byteOffset := 100 }).panicked = true ∧
    handleWindowUpdateFrame sessionTomb3 { streamID := 3, byteOffset := 100 } ≠
      ⟨sessionTomb3, [], none, false⟩ := by
  constructor
  · rfl
  · decide

/-- C3 (amended): stream id 0 is accepted with no effect; an absent id
yields `WindowUpdateOnInvalidStream`; a live id has its send-side
flow-control window raised (monotonically) to the frame's byte offset
with a nil result; a tombstoned id makes the handler dereference the
nil entry and fault instead of returning. -/
theorem handleWindowUpdateFrame_spec (s : Session) (frame : WindowUpdateFrame) :
    (frame.streamID = 0 → handleWindowUpdateFrame s frame = ⟨s, [], none, false⟩) ∧
    (frame.streamID ≠ 0 → lookupOk s.streams frame.streamID = none →
       handleWindowUpdateFrame s frame =
         ⟨s, [], some GoError.windowUpdateOnInvalidStream, false⟩) ∧
    (∀ str, frame.streamID ≠ 0 → lookupOk s.streams frame.streamID = some (some str) →
       handleWindowUpdateFrame s frame =
         ⟨s.withStreams (setStream s.streams frame.streamID
              (some (str.updateFlowControlWindow frame.byteOffset))),
          [], none, false⟩) ∧
    (frame.streamID ≠ 0 → lookupOk s.streams frame.streamID = some none →
       (handleWindowUpdateFrame s frame).panicked = true) := by
  refine ⟨?_, ?_, ?_, ?_⟩
  · intro h0
    simp [handleWindowUpdateFrame, h0]
  · intro h0 habs
    simp [handleWindowUpdateFrame, h0, habs]
  · intro str h0 hlive
    simp [handleWindowUpdateFrame, h0, hlive, Session.withStreams]
  · intro h0 htomb
    simp [handleWindowUpdateFrame, h0, htomb]

/-- Witness for C3 (amended) at concrete inputs: a live stream's window
is raised. -/
theorem handleWindowUpdateFrame_spec_witness :
    handleWindowUpdateFrame sessionFin3 { streamID := 3, byteOffset := 100 } =
      ⟨sessionFin3.withStreams (setStream sessionFin3.streams 3
           (some (streamFin3.updateFlowControlWindow 100))),
       [], none, false⟩ :=
  (handleWindowUpdateFrame_spec sessionFin3 { streamID := 3, byteOffset := 100 }).2.2.1
    streamFin3 (by decide) rfl

/-- C1 counterexample: after garbage collection tombstones stream 3,
calling `NewStream 3` succeeds and replaces the tombstone with a live
stream — the occupancy check `s.streams[id] != nil` reads the plain Go
map value, which is nil both for an absent key and for a tombstone, so
a retired id is re-created. -/
theorem newStream_resurrects_tombstone :
    lookupOk (garbageCollectStreams sessionFin3).streams 3 = some none ∧
    (NewStream (garbageCollectStreams sessionFin3) 3).2 = Except.ok (newStream 3) ∧
    lookupOk (NewStream (garbageCollectStreams sessionFin3) 3).1.streams 3 =
      some (some (newStream 3)) := by
  exact ⟨rfl, rfl, rfl⟩

/-- C1 (amended): once an id is tombstoned, frame handling
(`handleStreamFrame`, `handleWindowUpdateFrame` whenever it returns,
`handleRstStreamFrame`), garbage collection, stream-error propagation
and `Close` all leave the entry tombstoned; only `NewStream` (per the
counterexample) replaces it with a live stream. -/
theorem tombstone_preserved_by_handlers
    (addFrame : Stream → StreamFrame → Except GoError Stream)
    (s : Session) (id : StreamID) (fr : StreamFrame) (wu : WindowUpdateFrame)
    (rf : RstStreamFrame) (e : GoError) (env : CloseEnv) (eo : Option GoError) (b : Bool)
    (h : lookupOk s.streams id = some none) :
    lookupOk (handleStreamFrame addFrame s fr).state.streams id = some none ∧
    ((handleWindowUpdateFrame s wu).panicked = false →
       lookupOk (handleWindowUpdateFrame s wu).state.streams id = some none) ∧
    lookupOk (handleRstStreamFrame s rf).state.streams id = some none ∧
    lookupOk (garbageCollectStreams s).streams id = some none ∧
    lookupOk (closeStreamsWithError s e).streams id = some none ∧
    lookupOk (Close env s eo b).state.streams id = some none := by
  refine ⟨?_, ?_, ?_, ?_, ?_, lookupOk_Close_streams env s eo b id h⟩
  · by_cases hid : id = fr.streamID
    · subst hid
      simp [handleStreamFrame, h]
    · have hset : ∀ t v, lookupOk (setStream t fr.streamID v) id = lookupOk t id :=
        fun t v => lookupOk_setStream_ne t fr.streamID v id hid
      simp only [handleStreamFrame]
      repeat' split
      all_goals simp only [Session.withStreams]
      all_goals first | exact h | (rw [hset]; exact h) | (rw [hset, hset]; exact h)
  · intro hnp
    by_cases hid : id = wu.streamID
    · subst hid
      simp only [handleWindowUpdateFrame] at hnp ⊢
      by_cases h0 : wu.streamID = 0
      · simpa [h0] using h
      · simp only [h0, if_false, h] at hnp ⊢
    · have hset : ∀ t v, lookupOk (setStream t wu.streamID v) id = lookupOk t id :=
        fun t v => lookupOk_setStream_ne t wu.streamID v id hid
      simp only [handleWindowUpdateFrame]
      repeat' split
      all_goals first | exact h | (rw [hset]; exact h)
  · by_cases hid : id = rf.streamID
    · subst hid
      simp [handleRstStreamFrame, h]
    · have hset : ∀ t v, lookupOk (setStream t rf.streamID v) id = lookupOk t id :=
        fun t v => lookupOk_setStream_ne t rf.streamID v id hid
      simp only [handleRstStreamFrame]
      repeat' split
      all_goals first | exact h | (rw [hset]; exact h)
  · rw [lookupOk_garbageCollect, h]
    rfl
  · rw [lookupOk_closeStreamsWithError, h]
    rfl

/-- Witness for C1 (amended) at a concrete tombstoned table. -/
theorem tombstone_preserved_by_handlers_witness :
    lookupOk (handleStreamFrame appendFrame sessionTomb3
      { streamID := 3, offset := 0, data := [], finBit := false }).state.streams 3 = some none :=
  (tombstone_preserved_by_handlers appendFrame sessionTomb3 3
    { streamID := 3, offset := 0, data := [], finBit := false }
    { streamID := 3, byteOffset := 0 } { streamID := 3, errorCode := 0, byteOffset := 0 }
    (GoError.other 0) closeEnv0 none true rfl).1

/-- C2 counterexample: a packet whose decryption fails is discarded
with a nil result, but session state is not as if the packet had never
arrived — `lastRcvdPacketNumber` was already updated (and the remote
address already recorded) before the unpacker ran. -/
theorem handlePacket_decryption_failure_changes_state :
    (handlePacket handlePacketEnvDecFail sessionLast3 0 5).result = none ∧
    (handlePacket handlePacketEnvDecFail sessionLast3 0 5).events = [Event.setRemoteAddr 0] ∧
    (handlePacket handlePacketEnvDecFail sessionLast3 0 5).state.lastRcvdPacketNumber = 5 ∧
    sessionLast3.lastRcvdPacketNumber = 3 ∧
    (handlePacket handlePacketEnvDecFail sessionLast3 0 5).state ≠ sessionLast3 := by
  refine ⟨rfl, rfl, rfl, rfl, ?_⟩
  decide

/-- C2 (amended): on an unpack error with code `QUIC_DECRYPTION_FAILURE`
the packet is discarded with a nil result, nothing is registered with
the receive-ack engine and no frame is dispatched, but the last received
packet number (and the remote address) have already been updated; any
other unpack error is returned to the loop, with the same state
update. -/
theorem handlePacket_unpack_error_spec (env : HandlePacketEnv) (s : Session)
    (addr : Nat) (wpn : PacketNumber) :
    (∀ e, env.unpack = Except.error e → isDecryptionFailureErr e = true →
       handlePacket env s addr wpn =
         ⟨s.withLastRcvd (env.inferPacketNumber s.lastRcvdPacketNumber wpn),
          [Event.setRemoteAddr addr], none, false⟩) ∧
    (∀ e, env.unpack = Except.error e → isDecryptionFailureErr e = false →
       handlePacket env s addr wpn =
         ⟨s.withLastRcvd (env.inferPacketNumber s.lastRcvdPacketNumber wpn),
          [Event.setRemoteAddr addr], some e, false⟩) := by
  constructor
  · intro e hu hdec
    simp [handlePacket, hu, hdec, Session.withLastRcvd]
  · intro e hu hdec
    simp [handlePacket, hu, hdec, Session.withLastRcvd]

/-- Witness for C2 (amended) at the concrete decryption-failure
environment. -/
theorem handlePacket_unpack_error_spec_witness :
    handlePacket handlePacketEnvDecFail sessionLast3 0 5 =
      ⟨sessionLast3.withLastRcvd
         (handlePacketEnvDecFail.inferPacketNumber sessionLast3.lastRcvdPacketNumber 5),
       [Event.setRemoteAddr 0], none, false⟩ :=
  (handlePacket_unpack_error_spec handlePacketEnvDecFail sessionLast3 0 5).1
    (GoError.quicErr QUIC_DECRYPTION_FAILURE "decryption failed") rfl rfl

/-- C6: in `sendPacket`, the congestion controller's `OnPacketSent` is
invoked for a packet exactly when loss recovery's `SentPacket` was
invoked for it and accepted it; when `SentPacket` errors, `sendPacket`
returns that error and `OnPacketSent` never runs. -/
theorem sendPacket_onPacketSent_iff_accepted (env : SendEnv) :
    (∀ pn, Event.onPacketSentEv pn ∈ (sendPacket env).1 ↔
       (Event.sentPacketEv pn ∈ (sendPacket env).1 ∧ env.sentPacketResult = none)) ∧
    (∀ e, env.sentPacketResult = some e →
       (∃ pn, Event.sentPacketEv pn ∈ (sendPacket env).1) →
       (sendPacket env).2 = some e) := by
  constructor
  · intro pn
    by_cases hc : congestionAllowsSending env
    · rcases hrp : env.retransmitPacket with _ | rp <;>
        rcases hda : env.dequeueAck with e0 | a <;>
        rcases hpp : env.packPacket with e1 | (_ | p) <;>
        rcases hsr : env.sentPacketResult with _ | e2 <;>
        rcases hwr : env.writeResult with _ | e3 <;>
        cases hpe : env.packerEmpty <;>
        simp [sendPacket, hc, hrp, hda, hpp, hsr, hwr, hpe, retransEvents]
    · simp [sendPacket, hc]
  · intro e he hex
    by_cases hc : congestionAllowsSending env
    · rcases hrp : env.retransmitPacket with _ | rp <;>
        rcases hda : env.dequeueAck with e0 | a <;>
        rcases hpp : env.packPacket with e1 | (_ | p) <;>
        rcases hwr : env.writeResult with _ | e3 <;>
        cases hpe : env.packerEmpty <;>
        simp_all [sendPacket, retransEvents]
    · simp_all [sendPacket]

/-- Witness for C6 at a concrete environment in which loss recovery
rejects the packet: `sendPacket` returns that error. -/
theorem sendPacket_onPacketSent_iff_accepted_witness :
    (sendPacket sendEnvRejected).2 = some (GoError.other 9) :=
  (sendPacket_onPacketSent_iff_accepted sendEnvRejected).2 (GoError.other 9) rfl
    ⟨4, by decide⟩

/-- C7: `Close` is idempotent — the first call on an open session flips
the closed flag to true, raises the close signal exactly once and
invokes the close callback with the connection id exactly once, and any
later call (with any arguments) returns nil immediately with no
events. -/
theorem Close_idempotent (env env2 : CloseEnv) (s : Session) (e e2 : Option GoError)
    (b b2 : Bool) (h : s.closed = false) :
    (Close env s e b).state.closed = true ∧
    (Close env s e b).events.count Event.closeSignal = 1 ∧
    (Close env s e b).events.count (Event.closeCallbackEv s.connectionID) = 1 ∧
    Close env2 (Close env s e b).state e2 b2 =
      ⟨(Close env s e b).state, [], none, false⟩ := by
  have hclosed : (Close env s e b).state.closed = true := by
    simp only [Close, h, Bool.false_eq_true, if_false]
    repeat' split
    all_goals rfl
  refine ⟨hclosed, ?_, ?_, Close_noop_when_closed env2 _ e2 b2 hclosed⟩
  · simp only [Close, h, Bool.false_eq_true, if_false]
    repeat' split
    all_goals simp [sendPublicReset]
  · simp only [Close, h, Bool.false_eq_true, if_false]
    repeat' split
    all_goals simp [sendPublicReset]

/-- Witness for C7: a second `Close` on the already-closed session
returns nil with no side effects. -/
theorem Close_idempotent_witness :
    Close closeEnv0 (Close closeEnv0 session0 none false).state none false =
      ⟨(Close closeEnv0 session0 none false).state, [], none, false⟩ :=
  (Close_idempotent closeEnv0 closeEnv0 session0 none none false false rfl).2.2.2

/-- C8: closing an open session with `send connection close` and a
`QUIC_DECRYPTION_FAILURE` error writes a public reset packet carrying
the session's connection id, the last received packet number as the
rejected packet number and a zero nonce proof, and no CONNECTION_CLOSE
packet is built or sent. -/
theorem Close_decryption_failure_public_reset (env : CloseEnv) (s : Session)
    (phrase : String) (h : s.closed = false) :
    Close env s (some (GoError.quicErr QUIC_DECRYPTION_FAILURE phrase)) true =
      ⟨closeStreamsWithError { s with closed := true } (GoError.quicErr QUIC_DECRYPTION_FAILURE phrase),
       [Event.closeSignal, Event.closeCallbackEv s.connectionID,
        Event.publicReset s.connectionID s.lastRcvdPacketNumber 0, Event.connWriteEv],
       env.writeResult, false⟩ ∧
    (∀ c r, Event.connectionCloseSent c r ∉
       (Close env s (some (GoError.quicErr QUIC_DECRYPTION_FAILURE phrase)) true).events) := by
  constructor
  · simp [Close, h, goErrorCode, sendPublicReset, closeStreamsWithError]
  · intro c r
    simp [Close, h, goErrorCode, sendPublicReset]

/-- Witness for C8 at a concrete session whose last received packet
number is 9. -/
theorem Close_decryption_failure_public_reset_witness :
    Close closeEnv0 sessionTomb3 (some (GoError.quicErr QUIC_DECRYPTION_FAILURE "bad")) true =
      ⟨closeStreamsWithError { sessionTomb3 with closed := true } (GoError.quicErr QUIC_DECRYPTION_FAILURE "bad"),
       [Event.closeSignal, Event.closeCallbackEv sessionTomb3.connectionID,
        Event.publicReset sessionTomb3.connectionID sessionTomb3.lastRcvdPacketNumber 0,
        Event.connWriteEv],
       closeEnv0.writeResult, false⟩ :=
  (Close_decryption_failure_public_reset closeEnv0 sessionTomb3 "bad" rfl).1

/-- C9: the loop's error disposition — a nil error and
`DuplicateOrOutOfOrderAck` are silently ignored (no close, no log),
`RstStreamOnInvalidStream` is logged and ignored, and every other error
(`MapAccess` included, via the general clause) triggers `Close` with
that error and `send connection close = true`, whose return value the
loop discards. -/
theorem run_loop_error_disposition (env : CloseEnv) (s : Session) :
    runDisposeLoopError env s none = ⟨s, [], none, false⟩ ∧
    runDisposeLoopError env s (some GoError.duplicateOrOutOfOrderAck) = ⟨s, [], none, false⟩ ∧
    runDisposeLoopError env s (some GoError.rstStreamOnInvalidStream) =
      ⟨s, [Event.logErrorEv GoError.rstStreamOnInvalidStream], none, false⟩ ∧
    (∀ e, e ≠ GoError.duplicateOrOutOfOrderAck → e ≠ GoError.rstStreamOnInvalidStream →
       (runDisposeLoopError env s (some e)).state = (Close env s (some e) true).state ∧
       (runDisposeLoopError env s (some e)).events = (Close env s (some e) true).events ∧
       (runDisposeLoopError env s (some e)).result = none) := by
  refine ⟨rfl, rfl, rfl, ?_⟩
  intro e h1 h2
  cases e
  case duplicateOrOutOfOrderAck => exact absurd rfl h1
  case rstStreamOnInvalidStream => exact absurd rfl h2
  all_goals exact ⟨rfl, rfl, rfl⟩

/-- Witness for C9: an `InvalidStreamID` error reaching the loop
produces exactly the events of `Close(err, true)`. -/
theorem run_loop_error_disposition_witness :
    (runDisposeLoopError closeEnv0 session0 (some GoError.invalidStreamID)).events =
      (Close closeEnv0 session0 (some GoError.invalidStreamID) true).events :=
  ((run_loop_error_disposition closeEnv0 session0).2.2.2 GoError.invalidStreamID
    (by decide) (by decide)).2.1

end Quic
